import Mathlib

/-!
Verification development for the EverydayElastic copilot frontend
(`src/frontend/src/app/copilot/page.tsx`) and the citation-grounding
contract of the answer pipeline described in the system specification.

The React page is embedded as a pure state machine: the component's
`useState` cells become the fields of `CopilotState`, each event handler
becomes a function from a state (plus the environment inputs it reads:
clock readings, random id suffixes, and the outcome of the in-flight
`fetch`) to a new state, together with the HTTP request it issued, if any.
-/

namespace EverydayElastic

/-- `type Role = "user" | "assistant" | "system"`. -/
inductive Role where
  | user
  | assistant
  | system
deriving DecidableEq, Repr

/-- `interface FollowUpAction \x7b label; action; payload \x7d`; the payload is a
loosely-typed key/value bag, embedded as a key/value list. -/
structure FollowUpAction where
  label : String
  action : String
  payload : List (String × String)
deriving DecidableEq, Repr

/-- `interface RetrievalSource` from the page: id, title, optional snippet,
uri, score and metadata.  The numeric score is embedded as a rational. -/
structure RetrievalSource where
  id : String
  title : String
  snippet : Option String
  uri : Option String
  score : Option Rat
  metadata : Option (List (String × String))
deriving DecidableEq, Repr

/-- `interface ChatMessage`: role, content, timestamp, and the optional
sources / followUps / references attached to assistant turns. -/
structure ChatMessage where
  role : Role
  content : String
  timestamp : String
  sources : Option (List String)
  followUps : Option (List FollowUpAction)
  references : Option (List RetrievalSource)
deriving DecidableEq, Repr

/-- `interface ChatResponse`: the success payload of `POST /chat/completions`. -/
structure ChatResponse where
  session_id : String
  reply : ChatMessage
  sources : List String
  references : Option (List RetrievalSource)
  follow_ups : List FollowUpAction
deriving DecidableEq, Repr

/-- `interface Conversation`: a sidebar conversation persisted in the browser. -/
structure Conversation where
  id : String
  title : String
  messages : List ChatMessage
  sessionId : Option String
  lastUpdated : String
deriving DecidableEq, Repr

/-- The body of the request sent to `POST /chat/completions`:
`\x7b session_id, messages, locale \x7d`. -/
structure ChatRequest where
  session_id : Option String
  messages : List ChatMessage
  locale : String
deriving DecidableEq, Repr

/-- The `new Date().toISOString()` reading taken when the module loads; the
page stores it in the default assistant message's `timestamp` field.  Its
concrete value is never inspected by the page. -/
def pageLoadTimestamp : String := "2026-01-01T00:00:00.000Z"

/-- `DEFAULT_ASSISTANT_MESSAGE`: the greeting shown in every fresh
conversation. -/
def DEFAULT_ASSISTANT_MESSAGE : ChatMessage :=
  { role := Role.assistant
    content := "Hi! I\x27m EverydayElastic, your ops copilot. Ask me about active incidents, policies, runbooks, or chat history and I\x27ll cite relevant sources."
    timestamp := pageLoadTimestamp
    sources := none
    followUps := none
    references := none }

/-- `const maxRetries = 2`. -/
def maxRetries : Nat := 2

/-- The page's request deadline: `setTimeout(() => controller.abort(), 30000)`. -/
def timeoutMillis : Nat := 30000

/-- The `useState` cells of `CopilotPage` that the chat logic reads and
writes (render-only state such as `sidebarOpen` is omitted). -/
structure CopilotState where
  conversations : List Conversation
  currentConversationId : Option String
  messages : List ChatMessage
  sessionId : Option String
  input : String
  locale : String
  isLoading : Bool
  error : Option String
  actionFeedback : Option String
  retryCount : Nat
deriving DecidableEq, Repr

/-- The initial values passed to `useState` on first render. -/
def initialState : CopilotState :=
  { conversations := []
    currentConversationId := none
    messages := [DEFAULT_ASSISTANT_MESSAGE]
    sessionId := none
    input := ""
    locale := "en-US"
    isLoading := false
    error := none
    actionFeedback := none
    retryCount := 0 }

/-- JavaScript `String.prototype.trim`: drop whitespace from both ends. -/
def jsTrim (s : String) : String :=
  String.mk
    (((s.data.dropWhile Char.isWhitespace).reverse.dropWhile Char.isWhitespace).reverse)

/-- Whether `pat` is a leading segment of `s` (on character lists). -/
def charListHasPre : List Char → List Char → Bool
  | [], _ => true
  | _ :: _, [] => false
  | p :: ps, c :: cs => decide (p = c) && charListHasPre ps cs

/-- Whether `pat` occurs contiguously inside `s` (on character lists). -/
def charListHasSub : List Char → List Char → Bool
  | [], pat => pat.isEmpty
  | c :: rest, pat => charListHasPre pat (c :: rest) || charListHasSub rest pat

/-- JavaScript `String.prototype.includes`, used by the error classifier:
whether `pat` occurs contiguously in `s`. -/
def strContains (s pat : String) : Bool :=
  charListHasSub s.data pat.data

/-- The message of the `Error` thrown when `response.ok` is false:
`Request failed with status (status): (errorText)`. -/
def httpErrorMessage (status : Nat) (body : String) : String :=
  s!"Request failed with status {status}: {body}"

/-- The `catch` block of `handleSubmit`: classify the thrown error's message
into the user-facing error string. -/
def classifyError (msg : String) : String :=
  if strContains msg "aborted" then
    "Request timed out. The server took too long to respond. Please try again."
  else if strContains msg "Failed to fetch" then
    "Cannot reach the backend server. Please check your connection and ensure the API is running."
  else
    s!"Error: {msg}"

/-- How the `fetch` to `/chat/completions` resolved: a parsed `ChatResponse`,
a non-OK HTTP status with its body text, or a rejection (abort on timeout,
network failure, ...) carrying the thrown error's message. -/
inductive FetchOutcome where
  | ok (data : ChatResponse)
  | httpError (status : Nat) (body : String)
  | reject (msg : String)
deriving DecidableEq, Repr

/-- `FetchOutcome.ok` is the only non-failing outcome. -/
def FetchOutcome.isFailure : FetchOutcome → Bool
  | .ok _ => false
  | .httpError _ _ => true
  | .reject _ => true

/-- The `newUserMessage` literal built inside `handleSubmit` from the trimmed
input and a fresh clock reading. -/
def newUserMessage (s : CopilotState) (ts : String) : ChatMessage :=
  { role := Role.user
    content := jsTrim s.input
    timestamp := ts
    sources := none
    followUps := none
    references := none }

/-- `const optimisticMessages = retry ? messages : [...messages, newUserMessage]`. -/
def optimisticMessages (s : CopilotState) (retry : Bool) (ts : String) : List ChatMessage :=
  if retry then s.messages else s.messages ++ [newUserMessage s ts]

/-- The assistant turn appended on success:
`\x7b ...data.reply, sources, followUps, references \x7d`. -/
def assistantMessageOf (data : ChatResponse) : ChatMessage :=
  { data.reply with
      sources := some data.sources
      followUps := some data.follow_ups
      references := data.references }

/-- `handleSubmit(event, retry)`: the page's chat submission handler.

Inputs beyond the state: the `retry` flag, the clock reading `ts` used for
the new user message's timestamp, and the outcome of the `fetch`.  Returns
the new state together with the request body sent to `/chat/completions`
(`none` when the early guard returned without sending anything). -/
def handleSubmit (s : CopilotState) (retry : Bool) (ts : String)
    (outcome : FetchOutcome) : CopilotState × Option ChatRequest :=
  if jsTrim s.input = "" ∧ retry = false then
    (s, none)
  else
    let optimistic := optimisticMessages s retry ts
    let s1 := if retry then s else { s with messages := optimistic, input := "" }
    let s2 := { s1 with
        isLoading := true
        error := none
        retryCount := if retry then s.retryCount + 1 else 0 }
    let req : ChatRequest :=
      { session_id := s2.sessionId, messages := optimistic, locale := s2.locale }
    match outcome with
    | .ok data =>
        let assistantMessage := assistantMessageOf data
        let msgs :=
          if retry then s2.messages.dropLast ++ [assistantMessage]
          else s2.messages ++ [assistantMessage]
        ({ s2 with
            sessionId := some data.session_id
            messages := msgs
            retryCount := 0
            isLoading := false }, some req)
    | .httpError status body =>
        ({ s2 with
            error := some (classifyError (httpErrorMessage status body))
            isLoading := false }, some req)
    | .reject msg =>
        ({ s2 with
            error := some (classifyError msg)
            isLoading := false }, some req)

/-- `messages.findLast((m) => m.role === "user")`. -/
def findLastUser (msgs : List ChatMessage) : Option ChatMessage :=
  msgs.reverse.find? (fun m => decide (m.role = Role.user))

/-- `retryLastRequest`: when a last user message exists and fewer than
`maxRetries` retries have been made, re-run `handleSubmit` with
`retry = true` after placing that message's content back in the input box. -/
def retryLastRequest (s : CopilotState) (ts : String)
    (outcome : FetchOutcome) : CopilotState × Option ChatRequest :=
  match findLastUser s.messages with
  | some lastUserMessage =>
      if s.retryCount < maxRetries then
        handleSubmit { s with input := lastUserMessage.content } true ts outcome
      else (s, none)
  | none => (s, none)

/-- The id `startNewChat` builds from a clock reading and a random suffix:
`conv-(Date.now())-(Math.random().toString(36).substr(2, 9))`. -/
def newConversationId (nowMillis : Nat) (randSuffix : String) : String :=
  s!"conv-{nowMillis}-{randSuffix}"

/-- `startNewChat`: prepend a fresh conversation holding only the default
greeting, make it current, and reset messages, session id, error and
action feedback. -/
def startNewChat (s : CopilotState) (nowMillis : Nat) (randSuffix : String)
    (nowIso : String) : CopilotState :=
  let newConv : Conversation :=
    { id := newConversationId nowMillis randSuffix
      title := "New Chat"
      messages := [DEFAULT_ASSISTANT_MESSAGE]
      sessionId := none
      lastUpdated := nowIso }
  { s with
      conversations := newConv :: s.conversations
      currentConversationId := some newConv.id
      messages := [DEFAULT_ASSISTANT_MESSAGE]
      sessionId := none
      error := none
      actionFeedback := none }

/-- `switchConversation(convId)`: make the first conversation with that id
current and show its messages and session id; no-op when none matches. -/
def switchConversation (s : CopilotState) (convId : String) : CopilotState :=
  match s.conversations.find? (fun c => decide (c.id = convId)) with
  | some conv =>
      { s with
          currentConversationId := some conv.id
          messages := conv.messages
          sessionId := conv.sessionId
          error := none
          actionFeedback := none }
  | none => s

/-- `clearConversation`: reset the current conversation (when one is
current) and the open message list to the default greeting, dropping the
session id. -/
def clearConversation (s : CopilotState) : CopilotState :=
  let convs :=
    match s.currentConversationId with
    | some cid =>
        s.conversations.map (fun conv =>
          if conv.id = cid then
            { conv with messages := [DEFAULT_ASSISTANT_MESSAGE], sessionId := none }
          else conv)
    | none => s.conversations
  { s with
      conversations := convs
      messages := [DEFAULT_ASSISTANT_MESSAGE]
      sessionId := none
      error := none
      actionFeedback := none }

/-- `deleteConversation(convId)`: drop every conversation with that id; when
the current one was deleted, switch to the first remaining conversation, or
start a fresh chat when none remain (the fresh chat's id is built from the
supplied clock reading and random suffix). -/
def deleteConversation (s : CopilotState) (convId : String) (nowMillis : Nat)
    (randSuffix : String) (nowIso : String) : CopilotState :=
  let filtered := s.conversations.filter (fun c => decide (c.id ≠ convId))
  if s.currentConversationId = some convId then
    match filtered with
    | next :: _ =>
        { s with
            conversations := filtered
            currentConversationId := some next.id
            messages := next.messages
            sessionId := next.sessionId }
    | [] => startNewChat { s with conversations := filtered } nowMillis randSuffix nowIso
  else
    { s with conversations := filtered }

/-- The duplicate filter applied to the list parsed from localStorage:
`parsed.filter((conv, index, self) => index === self.findIndex(c => c.id === conv.id))`
keeps an element exactly when its index is the first index carrying its id. -/
def dedupeById (parsed : List Conversation) : List Conversation :=
  ((parsed.enum).filter (fun p =>
      decide (parsed.findIdx? (fun c => decide (c.id = p.2.id)) = some p.1))).map
    Prod.snd

/-- The mount effect that loads saved conversations: deduplicate by id, store
the list, and when it is non-empty open its first conversation. -/
def loadConversations (s : CopilotState) (parsed : List Conversation) : CopilotState :=
  let uniqueConvs := dedupeById parsed
  match uniqueConvs with
  | latest :: _ =>
      { s with
          conversations := uniqueConvs
          currentConversationId := some latest.id
          messages := latest.messages
          sessionId := latest.sessionId }
  | [] => { s with conversations := uniqueConvs }

/-!
## Answer pipeline: citation grounding

The backend pipeline (FastAPI service) is not part of the checked-in
sources; only its frontend consumer is.  The Context Assembler and Answer
Generator below are modelled from the specification so the citation
invariant can be stated.
-/

/-- Modelled from the spec: the generated answer text, viewed as the
sequence of its spans — plain text spans and citation-marker spans.  The
missing backend's Answer Generator produces such text. -/
inductive AnswerSegment where
  | text (s : String)
  | cite (marker : Nat)
deriving DecidableEq, Repr

/-- Modelled from the spec: one document of an EvidenceSet, tagged with the
stable citation marker the Context Assembler assigned to it. -/
structure EvidenceDoc where
  docId : String
  body : String
  marker : Nat
deriving DecidableEq, Repr

/-- Modelled from the spec: an EvidenceSet is an ordered list of evidence
documents, each tagged with a citation marker. -/
structure EvidenceSet where
  docs : List EvidenceDoc
deriving DecidableEq, Repr

/-- The citation markers present in an EvidenceSet. -/
def EvidenceSet.markers (e : EvidenceSet) : List Nat :=
  e.docs.map (fun d => d.marker)

/-- Modelled from the spec: the Answer Generator's validation step — any
citation marker not present in the EvidenceSet is stripped from the
returned text rather than surfaced. -/
def stripInvalidCitations (e : EvidenceSet) (segs : List AnswerSegment) :
    List AnswerSegment :=
  segs.filter (fun seg =>
    match seg with
    | .text _ => true
    | .cite m => decide (m ∈ e.markers))

/-- Modelled from the spec: a GroundedAnswer — generated text, the citation
markers actually referenced, and the source identifiers of the cited
documents. -/
structure GroundedAnswer where
  segments : List AnswerSegment
  citations : List Nat
  sourceIds : List String
deriving DecidableEq, Repr

/-- The citation markers referenced by a list of answer segments. -/
def citedMarkers (segs : List AnswerSegment) : List Nat :=
  segs.filterMap (fun seg =>
    match seg with
    | .cite m => some m
    | .text _ => none)

/-- Modelled from the spec: the Answer Generator (§4.5), whose body is not
under the checked-in sources.  It validates the raw generated text against
the EvidenceSet, stripping fabricated markers, and reports the markers and
source ids actually cited. -/
def generate (e : EvidenceSet) (raw : List AnswerSegment) : GroundedAnswer :=
  let cleaned := stripInvalidCitations e raw
  { segments := cleaned
    citations := citedMarkers cleaned
    sourceIds :=
      (e.docs.filter (fun d => decide (d.marker ∈ citedMarkers cleaned))).map
        (fun d => d.docId) }

/-!
## Theorems

Concrete fixtures used by the witness theorems.
-/

/-- A state whose input box holds the text `hello`. -/
def sampleState : CopilotState := { initialState with input := "hello" }

/-- A concrete successful `/chat/completions` response. -/
def sampleResponse : ChatResponse :=
  { session_id := "sess-1"
    reply := { role := Role.assistant, content := "hi", timestamp := "t1"
               sources := none, followUps := none, references := none }
    sources := ["doc-1"]
    references := none
    follow_ups := [] }

/-- C1: for every EvidenceSet and every GroundedAnswer generated from it,
every citation marker appearing in the returned answer text is present in
that EvidenceSet; the system never fabricates a citation marker that does
not correspond to an evidence document. -/
theorem generate_no_fabricated_citations (e : EvidenceSet)
    (raw : List AnswerSegment) (m : Nat)
    (hm : AnswerSegment.cite m ∈ (generate e raw).segments) :
    m ∈ e.markers := by
  simp only [generate, stripInvalidCitations, List.mem_filter] at hm
  exact of_decide_eq_true hm.2

/-- Witness for C1 at a concrete EvidenceSet and raw answer. -/
theorem generate_no_fabricated_citations_witness :
    (1 : Nat) ∈ EvidenceSet.markers ⟨[⟨"doc-1", "runbook body", 1⟩]⟩ :=
  generate_no_fabricated_citations ⟨[⟨"doc-1", "runbook body", 1⟩]⟩
    [AnswerSegment.cite 1, AnswerSegment.text "see runbook", AnswerSegment.cite 7] 1
    (by decide)

/-- C2: a chat turn sends `\x7b session_id, messages, locale \x7d` where the
messages are the conversation with the new user turn appended, and on
success appends an assistant turn that is the reply combined with exactly
the response's sources, references and follow-ups, storing the returned
session id. -/
theorem handleSubmit_request_response_shape (s : CopilotState) (ts : String)
    (data : ChatResponse) (h : ¬ jsTrim s.input = "") :
    (handleSubmit s false ts (FetchOutcome.ok data)).2
      = some { session_id := s.sessionId
               messages := s.messages ++ [newUserMessage s ts]
               locale := s.locale }
    ∧ (handleSubmit s false ts (FetchOutcome.ok data)).1.messages
      = (s.messages ++ [newUserMessage s ts]) ++ [assistantMessageOf data]
    ∧ assistantMessageOf data
      = { data.reply with
            sources := some data.sources
            followUps := some data.follow_ups
            references := data.references }
    ∧ (handleSubmit s false ts (FetchOutcome.ok data)).1.sessionId
      = some data.session_id := by
  simp [handleSubmit, optimisticMessages, h, assistantMessageOf]

/-- Witness for C2 at a concrete state and response. -/
theorem handleSubmit_request_response_shape_witness :
    (handleSubmit sampleState false "t0" (FetchOutcome.ok sampleResponse)).2
      = some { session_id := sampleState.sessionId
               messages := sampleState.messages ++ [newUserMessage sampleState "t0"]
               locale := sampleState.locale } :=
  (handleSubmit_request_response_shape sampleState "t0" sampleResponse (by decide)).1

/-- Helper: the state effects of a failed non-retry submission. -/
theorem handleSubmit_failure_effects (s : CopilotState) (ts : String)
    (o : FetchOutcome) (h : ¬ jsTrim s.input = "")
    (hf : o.isFailure = true) :
    (handleSubmit s false ts o).1.messages = s.messages ++ [newUserMessage s ts]
    ∧ (handleSubmit s false ts o).1.sessionId = s.sessionId
    ∧ ∃ msg, (handleSubmit s false ts o).1.error = some msg := by
  cases o with
  | ok data => simp [FetchOutcome.isFailure] at hf
  | httpError status body => simp [handleSubmit, optimisticMessages, h]
  | reject msg => simp [handleSubmit, optimisticMessages, h]

/-- C3: on a hard failure (non-OK HTTP status or transport error) no
assistant turn is appended — the message list is exactly the prior list
with the user turn added — an error message is surfaced, and the stored
session id is unchanged. -/
theorem handleSubmit_hard_failure_atomic (s : CopilotState) (ts : String)
    (o : FetchOutcome) (h : ¬ jsTrim s.input = "")
    (hf : o.isFailure = true) :
    (handleSubmit s false ts o).1.messages = s.messages ++ [newUserMessage s ts]
    ∧ (handleSubmit s false ts o).1.sessionId = s.sessionId
    ∧ ∃ msg, (handleSubmit s false ts o).1.error = some msg :=
  handleSubmit_failure_effects s ts o h hf

/-- Witness for C3 at a concrete state and a 500 response. -/
theorem handleSubmit_hard_failure_atomic_witness :
    (handleSubmit sampleState false "t0"
        (FetchOutcome.httpError 500 "boom")).1.messages
      = sampleState.messages ++ [newUserMessage sampleState "t0"]
    ∧ (handleSubmit sampleState false "t0"
        (FetchOutcome.httpError 500 "boom")).1.sessionId = sampleState.sessionId :=
  let h := handleSubmit_hard_failure_atomic sampleState "t0"
    (FetchOutcome.httpError 500 "boom") (by decide) (by decide)
  ⟨h.1, h.2.1⟩

/-- C4: the caller supplies the entire ordered turn sequence: the request's
messages field is the full current conversation including the newly
appended user turn (and on any outcome the displayed history extends it),
and the request is a pure function of (history, session id, locale, input)
— no hidden state feeds it. -/
theorem handleSubmit_full_history_sent (s : CopilotState) (ts : String)
    (o : FetchOutcome) (h : ¬ jsTrim s.input = "") :
    (∃ r, (handleSubmit s false ts o).2 = some r
      ∧ r.messages = s.messages ++ [newUserMessage s ts]
      ∧ r.session_id = s.sessionId
      ∧ r.locale = s.locale)
    ∧ (∀ s2 : CopilotState, s2.messages = s.messages → s2.sessionId = s.sessionId →
        s2.locale = s.locale → s2.input = s.input →
        (handleSubmit s2 false ts o).2 = (handleSubmit s false ts o).2) := by
  constructor
  · refine ⟨{ session_id := s.sessionId
              messages := s.messages ++ [newUserMessage s ts]
              locale := s.locale }, ?_, rfl, rfl, rfl⟩
    cases o with
    | ok data => simp [handleSubmit, optimisticMessages, h]
    | httpError status body => simp [handleSubmit, optimisticMessages, h]
    | reject msg => simp [handleSubmit, optimisticMessages, h]
  · intro s2 hmsg hsess hloc hinp
    cases o with
    | ok data =>
        simp [handleSubmit, optimisticMessages, newUserMessage, hmsg, hsess, hloc, hinp, h]
    | httpError status body =>
        simp [handleSubmit, optimisticMessages, newUserMessage, hmsg, hsess, hloc, hinp, h]
    | reject msg =>
        simp [handleSubmit, optimisticMessages, newUserMessage, hmsg, hsess, hloc, hinp, h]

/-- Witness for C4 at a concrete state and outcome. -/
theorem handleSubmit_full_history_sent_witness :
    ∃ r, (handleSubmit sampleState false "t0"
            (FetchOutcome.reject "Failed to fetch")).2 = some r
      ∧ r.messages = sampleState.messages ++ [newUserMessage sampleState "t0"]
      ∧ r.session_id = sampleState.sessionId
      ∧ r.locale = sampleState.locale :=
  (handleSubmit_full_history_sent sampleState "t0"
    (FetchOutcome.reject "Failed to fetch") (by decide)).1

/-- C5: the first request of a conversation carries no session id (the
initial stored id is absent and every request echoes the stored id), a
successful response's session id is stored, and starting a new chat or
clearing a conversation resets the stored id to absent. -/
theorem sessionId_lifecycle :
    initialState.sessionId = none
    ∧ (∀ (s : CopilotState) (retry : Bool) (ts : String) (o : FetchOutcome)
        (r : ChatRequest), (handleSubmit s retry ts o).2 = some r →
          r.session_id = s.sessionId)
    ∧ (∀ (s : CopilotState) (ts : String) (data : ChatResponse),
        ¬ jsTrim s.input = "" →
          (handleSubmit s false ts (FetchOutcome.ok data)).1.sessionId
            = some data.session_id)
    ∧ (∀ (s : CopilotState) (n : Nat) (r i : String),
        (startNewChat s n r i).sessionId = none)
    ∧ (∀ s : CopilotState, (clearConversation s).sessionId = none) := by
  refine ⟨rfl, ?_, ?_, fun s n r i => rfl, fun s => rfl⟩
  · intro s retry ts o r hr
    by_cases hg : jsTrim s.input = "" ∧ retry = false
    · simp [handleSubmit, hg] at hr
    · cases o with
      | ok data =>
          simp only [handleSubmit, if_neg hg, Option.some.injEq] at hr
          cases hr
          cases retry <;> simp
      | httpError status body =>
          simp only [handleSubmit, if_neg hg, Option.some.injEq] at hr
          cases hr
          cases retry <;> simp
      | reject msg =>
          simp only [handleSubmit, if_neg hg, Option.some.injEq] at hr
          cases hr
          cases retry <;> simp
  · intro s ts data h
    simp [handleSubmit, h]

/-- Witness for C5: the stored id after a concrete successful turn is the
response's id. -/
theorem sessionId_lifecycle_witness :
    (handleSubmit sampleState false "t0"
        (FetchOutcome.ok sampleResponse)).1.sessionId
      = some sampleResponse.session_id :=
  sessionId_lifecycle.2.2.1 sampleState "t0" sampleResponse (by decide)

/-- Helper: when a last user message exists and the retry budget is not
exhausted, `retryLastRequest` sends exactly the current message list with
the stored session id and locale. -/
theorem retryLastRequest_request_eq (s : CopilotState) (ts : String)
    (o : FetchOutcome) (m : ChatMessage)
    (hm : findLastUser s.messages = some m) (hc : s.retryCount < maxRetries) :
    (retryLastRequest s ts o).2
      = some { session_id := s.sessionId
               messages := s.messages
               locale := s.locale } := by
  cases o with
  | ok data => simp [retryLastRequest, hm, hc, handleSubmit, optimisticMessages]
  | httpError status body =>
      simp [retryLastRequest, hm, hc, handleSubmit, optimisticMessages]
  | reject msg => simp [retryLastRequest, hm, hc, handleSubmit, optimisticMessages]

/-- C6: retrying is caller-level: a retry resubmits exactly the current
message list (no new user turn), it happens only when fewer than
`maxRetries` retries were made and a last user message exists, and a failed
submission followed by a retry sends exactly the failed request's history
again. -/
theorem retry_caller_level (s : CopilotState) (ts : String) (o : FetchOutcome) :
    (∀ m : ChatMessage, findLastUser s.messages = some m →
        s.retryCount < maxRetries →
        (retryLastRequest s ts o).2
          = some { session_id := s.sessionId
                   messages := s.messages
                   locale := s.locale })
    ∧ (maxRetries ≤ s.retryCount → retryLastRequest s ts o = (s, none))
    ∧ (findLastUser s.messages = none → retryLastRequest s ts o = (s, none))
    ∧ (∀ (ts2 : String) (o2 : FetchOutcome), o.isFailure = true →
        ¬ jsTrim s.input = "" →
        (retryLastRequest (handleSubmit s false ts o).1 ts2 o2).2
          = some { session_id := s.sessionId
                   messages := s.messages ++ [newUserMessage s ts]
                   locale := s.locale }) := by
  refine ⟨fun m hm hc => retryLastRequest_request_eq s ts o m hm hc, ?_, ?_, ?_⟩
  · intro hc
    cases hm : findLastUser s.messages with
    | none => simp [retryLastRequest, hm]
    | some m => simp [retryLastRequest, hm, Nat.not_lt.mpr hc]
  · intro hm
    simp [retryLastRequest, hm]
  · intro ts2 o2 hf h
    have hmsgs : (handleSubmit s false ts o).1.messages
        = s.messages ++ [newUserMessage s ts] :=
      (handleSubmit_failure_effects s ts o h hf).1
    have hsess : (handleSubmit s false ts o).1.sessionId = s.sessionId :=
      (handleSubmit_failure_effects s ts o h hf).2.1
    have hlast : findLastUser (handleSubmit s false ts o).1.messages
        = some (newUserMessage s ts) := by
      rw [hmsgs]
      simp [findLastUser, newUserMessage]
    have hcount : (handleSubmit s false ts o).1.retryCount = 0 := by
      cases o with
      | ok data => simp [FetchOutcome.isFailure] at hf
      | httpError status body => simp [handleSubmit, h]
      | reject msg => simp [handleSubmit, h]
    have hloc : (handleSubmit s false ts o).1.locale = s.locale := by
      cases o with
      | ok data => simp [FetchOutcome.isFailure] at hf
      | httpError status body => simp [handleSubmit, h]
      | reject msg => simp [handleSubmit, h]
    rw [retryLastRequest_request_eq (handleSubmit s false ts o).1 ts2 o2
      (newUserMessage s ts) hlast (by rw [hcount]; decide)]
    rw [hmsgs, hsess, hloc]

/-- The state after a concrete failed first turn. -/
def sampleFailedState : CopilotState :=
  (handleSubmit sampleState false "t0" (FetchOutcome.httpError 500 "boom")).1

/-- Witness for C6: a concrete retry resubmits the failed request's exact
message list. -/
theorem retry_caller_level_witness :
    (retryLastRequest sampleFailedState "t2" (FetchOutcome.ok sampleResponse)).2
      = some { session_id := sampleFailedState.sessionId
               messages := sampleFailedState.messages
               locale := sampleFailedState.locale } :=
  (retry_caller_level sampleFailedState "t2" (FetchOutcome.ok sampleResponse)).1
    (newUserMessage sampleState "t0") (by decide) (by decide)

/-- C7: the in-flight call is aborted after `timeoutMillis = 30000`
milliseconds, and an aborted request is handled exactly like any other
transport failure: a timeout error message is surfaced, no assistant turn
is appended, and the resulting state differs from any other rejected
request's only in the error text. -/
theorem timeout_deadline_and_io_equivalence (s : CopilotState) (ts : String)
    (msg : String) (h : ¬ jsTrim s.input = "")
    (habort : strContains msg "aborted" = true) :
    timeoutMillis = 30000
    ∧ (handleSubmit s false ts (FetchOutcome.reject msg)).1.error
        = some "Request timed out. The server took too long to respond. Please try again."
    ∧ (handleSubmit s false ts (FetchOutcome.reject msg)).1.messages
        = s.messages ++ [newUserMessage s ts]
    ∧ (∀ msg2 : String,
        (handleSubmit s false ts (FetchOutcome.reject msg)).1
          = { (handleSubmit s false ts (FetchOutcome.reject msg2)).1 with
                error := some (classifyError msg) }) := by
  refine ⟨rfl, ?_, ?_, ?_⟩
  · simp [handleSubmit, h, classifyError, habort]
  · simp [handleSubmit, optimisticMessages, h]
  · intro msg2
    simp [handleSubmit, h]

/-- Witness for C7 with the browser's abort message. -/
theorem timeout_deadline_and_io_equivalence_witness :
    (handleSubmit sampleState false "t0"
        (FetchOutcome.reject "The operation was aborted.")).1.error
      = some "Request timed out. The server took too long to respond. Please try again." :=
  (timeout_deadline_and_io_equivalence sampleState "t0"
    "The operation was aborted." (by decide) (by decide)).2.1

/-- C8: a successful retry replaces the last element of the pre-retry
message list with the assistant reply. -/
theorem retry_success_replaces_last (s : CopilotState) (ts : String)
    (data : ChatResponse) (init : List ChatMessage) (last : ChatMessage)
    (hs : s.messages = init ++ [last]) :
    (handleSubmit s true ts (FetchOutcome.ok data)).1.messages
      = init ++ [assistantMessageOf data] := by
  simp [handleSubmit, optimisticMessages, hs]

/-- Witness for C8: a concrete retry drops the retried user turn and
appends the reply. -/
theorem retry_success_replaces_last_witness :
    (handleSubmit sampleFailedState true "t2"
        (FetchOutcome.ok sampleResponse)).1.messages
      = [DEFAULT_ASSISTANT_MESSAGE] ++ [assistantMessageOf sampleResponse] :=
  retry_success_replaces_last sampleFailedState "t2" sampleResponse
    [DEFAULT_ASSISTANT_MESSAGE] (newUserMessage sampleState "t0") (by decide)

/-- Helper: when conversation ids are pairwise distinct, filtering out one
conversation's id removes exactly that conversation and keeps every other
entry in order. -/
theorem filter_ne_middle (pre post : List Conversation) (conv : Conversation)
    (hnd : ((pre ++ conv :: post).map (fun c => c.id)).Nodup) :
    (pre ++ conv :: post).filter (fun c => decide (c.id ≠ conv.id))
      = pre ++ post := by
  have hnm : conv.id ∉ pre.map (fun c => c.id)
      ∧ conv.id ∉ post.map (fun c => c.id) := by
    rw [List.map_append, List.map_cons] at hnd
    have h2 := List.nodup_middle.mp hnd
    rw [List.nodup_cons] at h2
    have h3 := h2.1
    simp only [List.mem_append] at h3
    exact ⟨fun hh => h3 (Or.inl hh), fun hh => h3 (Or.inr hh)⟩
  have hpre : pre.filter (fun c => !decide (c.id = conv.id)) = pre := by
    refine List.filter_eq_self.mpr (fun a ha => ?_)
    have hne : ¬ a.id = conv.id := fun heq =>
      hnm.1 (by rw [← heq]; exact List.mem_map_of_mem _ ha)
    simp [hne]
  have hpost : post.filter (fun c => !decide (c.id = conv.id)) = post := by
    refine List.filter_eq_self.mpr (fun a ha => ?_)
    have hne : ¬ a.id = conv.id := fun heq =>
      hnm.2 (by rw [← heq]; exact List.mem_map_of_mem _ ha)
    simp [hne]
  simp only [ne_eq, decide_not]
  rw [List.filter_append, List.filter_cons]
  simp [hpre, hpost]

/-- C9: deleting a conversation removes exactly that conversation (under
distinct ids) and leaves the others unchanged in order; deleting the
current conversation promotes the first remaining one (or starts a fresh
chat with the default greeting and no session id when none remain), and
deleting a non-current conversation leaves the open messages, session id
and current selection unchanged. -/
theorem deleteConversation_spec (s : CopilotState) (convId : String)
    (n : Nat) (r i : String) :
    (∀ conv : Conversation,
        (s.conversations.map (fun c => c.id)).Nodup →
        conv ∈ s.conversations → conv.id = convId →
        ∃ pre post, s.conversations = pre ++ conv :: post
          ∧ s.conversations.filter (fun c => decide (c.id ≠ convId))
              = pre ++ post)
    ∧ (∀ (next : Conversation) (rest : List Conversation),
        s.currentConversationId = some convId →
        s.conversations.filter (fun c => decide (c.id ≠ convId)) = next :: rest →
        deleteConversation s convId n r i
          = { s with
                conversations := next :: rest
                currentConversationId := some next.id
                messages := next.messages
                sessionId := next.sessionId })
    ∧ (s.currentConversationId = some convId →
        s.conversations.filter (fun c => decide (c.id ≠ convId)) = [] →
        deleteConversation s convId n r i
          = { s with
                conversations := [{ id := newConversationId n r
                                    title := "New Chat"
                                    messages := [DEFAULT_ASSISTANT_MESSAGE]
                                    sessionId := none
                                    lastUpdated := i }]
                currentConversationId := some (newConversationId n r)
                messages := [DEFAULT_ASSISTANT_MESSAGE]
                sessionId := none
                error := none
                actionFeedback := none })
    ∧ (¬ s.currentConversationId = some convId →
        deleteConversation s convId n r i
          = { s with
                conversations :=
                  s.conversations.filter (fun c => decide (c.id ≠ convId)) }) := by
  refine ⟨?_, ?_, ?_, ?_⟩
  · intro conv hnd hmem hid
    obtain ⟨pre, post, hsplit⟩ := List.append_of_mem hmem
    refine ⟨pre, post, hsplit, ?_⟩
    rw [hsplit] at hnd ⊢
    rw [← hid]
    exact filter_ne_middle pre post conv hnd
  · intro next rest hcur hfil
    simp only [ne_eq, decide_not] at hfil
    simp [deleteConversation, hcur, hfil]
  · intro hcur hfil
    simp only [ne_eq, decide_not] at hfil
    simp [deleteConversation, hcur, hfil, startNewChat]
  · intro hcur
    simp [deleteConversation, hcur]

/-- A second sidebar conversation for the C9 witness. -/
def sampleConvB : Conversation :=
  { id := "conv-b"
    title := "B"
    messages := [DEFAULT_ASSISTANT_MESSAGE]
    sessionId := some "sess-b"
    lastUpdated := "t1" }

/-- A state holding two conversations with the first one current. -/
def sampleConvState : CopilotState :=
  { initialState with
      conversations :=
        [{ id := "conv-a"
           title := "A"
           messages := [DEFAULT_ASSISTANT_MESSAGE]
           sessionId := some "sess-a"
           lastUpdated := "t1" }, sampleConvB]
      currentConversationId := some "conv-a"
      sessionId := some "sess-a" }

/-- Witness for C9: deleting the current conversation of a concrete
two-conversation state promotes the remaining one. -/
theorem deleteConversation_spec_witness :
    deleteConversation sampleConvState "conv-a" 7 "rnd" "t9"
      = { sampleConvState with
            conversations := [sampleConvB]
            currentConversationId := some sampleConvB.id
            messages := sampleConvB.messages
            sessionId := sampleConvB.sessionId } :=
  (deleteConversation_spec sampleConvState "conv-a" 7 "rnd" "t9").2.1
    sampleConvB [] (by decide) (by decide)

/-- Helper: the ids of the deduplicated conversation list are pairwise
distinct. -/
theorem dedupeById_ids_nodup (parsed : List Conversation) :
    ((dedupeById parsed).map (fun c => c.id)).Nodup := by
  have h1 : (parsed.enum).Pairwise (fun p q : Nat × Conversation => p.1 < q.1) := by
    have h := List.pairwise_lt_range parsed.length
    rw [← List.enum_map_fst parsed] at h
    exact List.pairwise_map.mp h
  have h2 : ((parsed.enum).filter (fun p =>
      decide (parsed.findIdx? (fun c => decide (c.id = p.2.id)) = some p.1))).Pairwise
        (fun p q => p.1 < q.1) :=
    List.Pairwise.sublist (List.filter_sublist _) h1
  have h3 : ((parsed.enum).filter (fun p =>
      decide (parsed.findIdx? (fun c => decide (c.id = p.2.id)) = some p.1))).Pairwise
        (fun p q => ¬ p.2.id = q.2.id) := by
    refine List.Pairwise.imp_of_mem ?_ h2
    intro a b ha hb hlt heq
    have hpa := (List.mem_filter.mp ha).2
    have hpb := (List.mem_filter.mp hb).2
    rw [decide_eq_true_iff] at hpa hpb
    have hfun : (fun c : Conversation => decide (c.id = a.2.id))
        = (fun c : Conversation => decide (c.id = b.2.id)) := by
      funext c
      rw [heq]
    rw [hfun] at hpa
    rw [hpa] at hpb
    have hab := Option.some.inj hpb
    omega
  unfold dedupeById
  rw [List.map_map]
  exact List.pairwise_map.mpr h3

/-- Helper: every conversation the dedup filter keeps came from the stored
list. -/
theorem dedupeById_subset (parsed : List Conversation) (d : Conversation)
    (hd : d ∈ dedupeById parsed) : d ∈ parsed := by
  unfold dedupeById at hd
  rw [List.mem_map] at hd
  obtain ⟨p, hp, hpd⟩ := hd
  have hpe := (List.mem_filter.mp hp).1
  rw [List.mem_enum_iff_getElem?] at hpe
  rw [← hpd]
  exact List.get?_mem (by rw [List.get?_eq_getElem?]; exact hpe)

/-- Helper: for every stored conversation, the first stored conversation
bearing its id survives deduplication. -/
theorem dedupeById_keeps_first (parsed : List Conversation) (c : Conversation)
    (hc : c ∈ parsed) :
    ∃ d, parsed.find? (fun x => decide (x.id = c.id)) = some d
      ∧ d ∈ dedupeById parsed := by
  have hsome : (parsed.find? (fun x => decide (x.id = c.id))).isSome :=
    List.find?_isSome.mpr ⟨c, hc, by simp⟩
  obtain ⟨d, hd⟩ := Option.isSome_iff_exists.mp hsome
  refine ⟨d, hd, ?_⟩
  obtain ⟨hpd, as, bs, hsplit, hall⟩ := List.find?_eq_some.mp hd
  have hdc : d.id = c.id := of_decide_eq_true hpd
  have hget : parsed[as.length]? = some d := by
    rw [hsplit, List.getElem?_append_right (Nat.le_refl as.length)]
    simp
  have hidx : parsed.findIdx? (fun x => decide (x.id = d.id)) = some as.length := by
    have hfun : (fun x : Conversation => decide (x.id = d.id))
        = (fun x : Conversation => decide (x.id = c.id)) := by
      funext x
      rw [hdc]
    rw [hfun, hsplit, List.findIdx?_append]
    have hnone : as.findIdx? (fun x : Conversation => decide (x.id = c.id)) = none :=
      List.findIdx?_eq_none_iff.mpr (fun x hx => by simpa using hall x hx)
    rw [hnone, Option.none_or]
    simp [List.findIdx?_cons, hpd]
  unfold dedupeById
  rw [List.mem_map]
  refine ⟨(as.length, d), ?_, rfl⟩
  rw [List.mem_filter]
  exact ⟨List.mem_enum_iff_getElem?.mpr hget, decide_eq_true hidx⟩

/-- Helper: under pairwise-distinct ids, at most one conversation bears any
given id. -/
theorem filter_id_length_le_one (convs : List Conversation) (cid : String)
    (h : (convs.map (fun c => c.id)).Nodup) :
    (convs.filter (fun c => decide (c.id = cid))).length ≤ 1 := by
  induction convs with
  | nil => simp
  | cons a t ih =>
      rw [List.map_cons, List.nodup_cons] at h
      rw [List.filter_cons]
      by_cases ha : a.id = cid
      · have ht : t.filter (fun c => decide (c.id = cid)) = [] := by
          rw [List.filter_eq_nil_iff]
          intro x hx
          simp only [decide_eq_true_iff]
          intro hxc
          exact h.1 (by rw [ha, ← hxc]; exact List.mem_map_of_mem _ hx)
        simp [ha, ht]
      · simp only [ha, decide_False]
        simp only [Bool.false_eq_true, if_false]
        exact ih h.2

/-- C10: loading keeps only the first stored conversation for each id, so
loaded ids are pairwise distinct; prepending a conversation with a fresh id
preserves distinctness; and under distinct ids any id addresses at most one
conversation. -/
theorem conversation_ids_unique (parsed : List Conversation) :
    ((dedupeById parsed).map (fun c => c.id)).Nodup
    ∧ (∀ d ∈ dedupeById parsed, d ∈ parsed)
    ∧ (∀ c ∈ parsed,
        ∃ d, parsed.find? (fun x => decide (x.id = c.id)) = some d
          ∧ d ∈ dedupeById parsed)
    ∧ (∀ (newConv : Conversation) (convs : List Conversation),
        (convs.map (fun c => c.id)).Nodup →
        newConv.id ∉ convs.map (fun c => c.id) →
        ((newConv :: convs).map (fun c => c.id)).Nodup)
    ∧ (∀ (convs : List Conversation) (cid : String),
        (convs.map (fun c => c.id)).Nodup →
        (convs.filter (fun c => decide (c.id = cid))).length ≤ 1) := by
  refine ⟨dedupeById_ids_nodup parsed,
    fun d hd => dedupeById_subset parsed d hd,
    fun c hc => dedupeById_keeps_first parsed c hc,
    ?_,
    fun convs cid h => filter_id_length_le_one convs cid h⟩
  intro newConv convs hnd hfresh
  rw [List.map_cons, List.nodup_cons]
  exact ⟨hfresh, hnd⟩

/-- Witness for C10 on a concrete stored list containing a duplicate id:
the first entry with the duplicated id is the one that is kept. -/
theorem conversation_ids_unique_witness :
    ∃ d, ([{ id := "conv-a", title := "A", messages := ([] : List ChatMessage)
             sessionId := none, lastUpdated := "t1" },
           { id := "conv-a", title := "A2", messages := [], sessionId := none
             lastUpdated := "t2" },
           sampleConvB] : List Conversation).find?
            (fun x => decide (x.id
              = ({ id := "conv-a", title := "A2", messages := [], sessionId := none
                   lastUpdated := "t2" } : Conversation).id)) = some d
      ∧ d ∈ dedupeById
          [{ id := "conv-a", title := "A", messages := [], sessionId := none
             lastUpdated := "t1" },
           { id := "conv-a", title := "A2", messages := [], sessionId := none
             lastUpdated := "t2" },
           sampleConvB] :=
  (conversation_ids_unique
      [{ id := "conv-a", title := "A", messages := [], sessionId := none
         lastUpdated := "t1" },
       { id := "conv-a", title := "A2", messages := [], sessionId := none
         lastUpdated := "t2" },
       sampleConvB]).2.2.1
    { id := "conv-a", title := "A2", messages := [], sessionId := none
      lastUpdated := "t2" }
    (by decide)

end EverydayElastic
